import Mathlib

/-!
# Verification of the binary clock applet (src/app.rs)

A shallow embedding of the rendering and state-update logic of the clock
applet.

* Machine integers (u8, u32, i32) are modelled as Nat/Int; all the values
  involved (digits 0-9, bit positions 0-3, the 3600-second offset) are far
  from any overflow boundary.
* The f32 geometry (padding, radius, circle centres) is modelled over ℚ with
  exact arithmetic; the layout formulas under scrutiny are exact rational
  expressions.
* The drawing surface is modelled by the list of filled-circle commands a
  frame accumulates: a call of canvas Frame fill on a circle path becomes
  appending a CircleCmd record.
-/

namespace BinaryClock

/-- Rust constant: `const UTC_OFFSET_SECONDS: i32 = 3600;`. -/
def UTC_OFFSET_SECONDS : Int := 3600

/-- Rust constant: `const ROWS: u8 = 4;`. -/
def ROWS : Nat := 4

/-- Rust enum: `enum DisplayMode { BCD, BINARY }`. -/
inductive DisplayMode where
  | BCD
  | BINARY
  deriving DecidableEq, Repr

/-- An RGB colour, modelling `cosmic::iced::Color::from_rgb` with exact
rational components. -/
structure Color where
  r : ℚ
  g : ℚ
  b : ℚ
  deriving DecidableEq, Repr

/-- The active (lit) circle colour: `Color::from_rgb(0.7, 0.7, 0.7)`. -/
def active_color : Color := ⟨7/10, 7/10, 7/10⟩

/-- The inactive (unlit) circle colour: `Color::from_rgb(0.2, 0.2, 0.2)`. -/
def inactive_color : Color := ⟨2/10, 2/10, 2/10⟩

/-- A point (`cosmic::iced::Point`), over exact rationals. -/
structure Point where
  x : ℚ
  y : ℚ
  deriving DecidableEq, Repr

/-- The drawing bounds (`cosmic::iced::Rectangle`): only the size matters to
the widget, so we keep width and height. -/
structure Rectangle where
  width : ℚ
  height : ℚ
  deriving DecidableEq, Repr

/-- One filled-circle draw command: `frame.fill(&canvas::Path::circle(position,
radius), circle_color)`. -/
structure CircleCmd where
  center : Point
  radius : ℚ
  color : Color
  deriving DecidableEq, Repr

/-- The wall-clock fields the widget reads from its `DateTime<FixedOffset>`
via `chrono::Timelike`: `hour()` (0-23), `minute()` (0-59), `second()`
(0-59). -/
structure ClockTime where
  hour : Nat
  minute : Nat
  second : Nat
  deriving DecidableEq, Repr

/-- Rust struct:
`struct ClockWidget { mode: DisplayMode, current_time: DateTime<FixedOffset> }`. -/
structure ClockWidget where
  mode : DisplayMode
  current_time : ClockTime
  deriving DecidableEq, Repr

/-- The hardcoded padding in `ClockWidget::column`: `let padding = 14.0;`. -/
def padding : ℚ := 14

/-- The circle radius of `ClockWidget::column`:
`let radius = available_height / (ROWS * 2) as f32;` where
`available_height = bounds.size().height - padding`. -/
def circleRadius (bounds : Rectangle) : ℚ :=
  (bounds.height - padding) / ((ROWS * 2 : Nat) : ℚ)

/-- The body of the `for circle_row in (0..ROWS as usize).rev()` loop in
`ClockWidget::column`: each iteration fills one circle at the current
`position` — active colour iff `number & (1 << circle_row) != 0` — then
advances `position.y` by `radius * 2.0`. -/
def columnLoop (rows : List Nat) (position : Point) (radius : ℚ) (number : Nat) :
    List CircleCmd :=
  match rows with
  | [] => []
  | circle_row :: rest =>
      let circle_color :=
        if number &&& (1 <<< circle_row) ≠ 0 then active_color else inactive_color
      { center := position, radius := radius, color := circle_color } ::
        columnLoop rest { x := position.x, y := position.y + radius * 2 } radius number

/-- Embedding of `ClockWidget::column(index, number, renderer, bounds)`: the
list of circle fill commands the returned frame holds. The start position is
`x = radius * 2 * index + radius`, `y = padding / 2 + radius`, and the loop
runs over the reversed row range (bit 3 first). -/
def columnCircles (index : Nat) (number : Nat) (bounds : Rectangle) :
    List CircleCmd :=
  let radius := circleRadius bounds
  let position : Point :=
    { x := radius * 2 * (index : ℚ) + radius, y := padding / 2 + radius }
  columnLoop (List.range ROWS).reverse position radius number

/-- The six BCD digits of the sampled time, in the order the six columns are
drawn in `ClockWidget::draw`: hour tens, hour ones, minute tens, minute ones,
second tens, second ones. -/
def timeDigits (t : ClockTime) : List Nat :=
  [t.hour / 10, t.hour % 10, t.minute / 10, t.minute % 10,
   t.second / 10, t.second % 10]

/-- Embedding of `ClockWidget::draw`: one geometry (here: one circle-command
list) per column, columns 0-5 carrying `hour/10, hour%10, minute/10,
minute%10, second/10, second%10`. The `mode` field is never read. -/
def ClockWidget.draw (w : ClockWidget) (bounds : Rectangle) :
    List (List CircleCmd) :=
  let hours_tens_place := columnCircles 0 (w.current_time.hour / 10) bounds
  let hours := columnCircles 1 (w.current_time.hour % 10) bounds
  let ten_minutes := columnCircles 2 (w.current_time.minute / 10) bounds
  let minutes := columnCircles 3 (w.current_time.minute % 10) bounds
  let tenth_seconds := columnCircles 4 (w.current_time.second / 10) bounds
  let seconds := columnCircles 5 (w.current_time.second % 10) bounds
  [hours_tens_place, hours, ten_minutes, minutes, tenth_seconds, seconds]

/-- A fixed time-zone offset (`chrono::FixedOffset`) storing its seconds east
of UTC. -/
structure FixedOffset where
  local_minus_utc : Int
  deriving DecidableEq, Repr

/-- Modelled from the chrono dependency (not part of this repository):
`FixedOffset::east_opt(secs)` succeeds exactly when `-86_400 < secs < 86_400`
and otherwise returns `None`. -/
def FixedOffset.east_opt (secs : Int) : Option FixedOffset :=
  if -86400 < secs ∧ secs < 86400 then some ⟨secs⟩ else none

/-- The config object is out of scope for the core logic (config.rs is not
under src/); the spec treats it as a key-value-backed structure the core
round-trips unchanged, so it is modelled as an abstract key-value record. -/
structure Config where
  fields : List (String × String)
  deriving DecidableEq, Repr

/-- Rust enum `Message` — messages emitted by the application and its
widgets. Window ids are modelled as naturals. -/
inductive Message where
  | TogglePopup
  | Tick
  | PopupClosed (id : Nat)
  | SubscriptionChannel
  | UpdateConfig (config : Config)
  | ToggleExampleRow (toggled : Bool)
  deriving DecidableEq, Repr

/-- Rust struct `AppModel`: the application state that `update` manipulates.
The framework-owned `core` field is never touched by the clock logic and is
omitted. -/
structure AppModel where
  popup : Option Nat
  config : Config
  example_row : Bool
  current_time : ClockTime
  deriving DecidableEq, Repr

/-- Embedding of `AppModel::update`. The `Tick` arm rebuilds the offset with
`FixedOffset::east_opt(UTC_OFFSET_SECONDS).unwrap()` and stores the freshly
sampled time; `none` models the panic of `unwrap`. The sampled,
offset-adjusted wall-clock time and the fresh popup id are environment
inputs, passed explicitly. -/
def AppModel.update (model : AppModel) (message : Message) (now : ClockTime)
    (freshId : Nat) : Option AppModel :=
  match message with
  | .Tick =>
      (FixedOffset.east_opt UTC_OFFSET_SECONDS).map fun _offset =>
        { model with current_time := now }
  | .SubscriptionChannel => some model
  | .UpdateConfig config => some { model with config := config }
  | .ToggleExampleRow toggled => some { model with example_row := toggled }
  | .TogglePopup =>
      match model.popup with
      | some _p => some { model with popup := none }
      | none => some { model with popup := some freshId }
  | .PopupClosed id =>
      if model.popup = some id then some { model with popup := none }
      else some model

/-- Embedding of `AppModel::init`: builds the offset with
`FixedOffset::east_opt(UTC_OFFSET_SECONDS).unwrap()` (again `none` models the
panic of `unwrap`), samples the current time, and constructs the model. -/
def AppModel.init (now : ClockTime) (config : Config) : Option AppModel :=
  (FixedOffset.east_opt UTC_OFFSET_SECONDS).map fun _offset =>
    { popup := none, config := config, example_row := false,
      current_time := now }

/-! ## Helper lemmas -/

/-- Bit-test equivalence: masking with `1 <<< b` is nonzero exactly when the
bit extracted by shifting right and masking with 1 is set. -/
lemma and_shift (n b : Nat) : (n &&& (1 <<< b) ≠ 0) ↔ ((n >>> b) &&& 1 = 1) := by
  rw [Nat.and_one_is_mod, Nat.shiftRight_eq_div_pow, Nat.shiftLeft_eq, one_mul,
    Nat.and_two_pow]
  cases h : n.testBit b
  · rw [Nat.testBit_to_div_mod] at h
    simp at h
    simp [h]
  · rw [Nat.testBit_to_div_mod] at h
    simp at h
    simp [h, pow_ne_zero]

/-- Unfolding of `columnCircles`: the four circles of a column, top to
bottom, testing bits 3, 2, 1, 0 of the digit. -/
lemma columnCircles_eq (i n : Nat) (bounds : Rectangle) :
    columnCircles i n bounds =
      let r := circleRadius bounds
      let x := r * 2 * (i : ℚ) + r
      [ ⟨⟨x, padding / 2 + r⟩, r, if n &&& 8 ≠ 0 then active_color else inactive_color⟩,
        ⟨⟨x, padding / 2 + r + r * 2⟩, r, if n &&& 4 ≠ 0 then active_color else inactive_color⟩,
        ⟨⟨x, padding / 2 + r + r * 2 + r * 2⟩, r, if n &&& 2 ≠ 0 then active_color else inactive_color⟩,
        ⟨⟨x, padding / 2 + r + r * 2 + r * 2 + r * 2⟩, r, if n &&& 1 ≠ 0 then active_color else inactive_color⟩ ] := by
  simp [columnCircles, columnLoop, ROWS, List.range_succ]

/-- The colours of the four circles of a column, top to bottom. -/
lemma columnCircles_colors (i n : Nat) (bounds : Rectangle) :
    (columnCircles i n bounds).map CircleCmd.color =
      [if n &&& (1 <<< 3) ≠ 0 then active_color else inactive_color,
       if n &&& (1 <<< 2) ≠ 0 then active_color else inactive_color,
       if n &&& (1 <<< 1) ≠ 0 then active_color else inactive_color,
       if n &&& (1 <<< 0) ≠ 0 then active_color else inactive_color] := by
  rw [columnCircles_eq]
  simp

/-- The vertical centres of the four circles of a column, top to bottom. -/
lemma columnCircles_ys (i n : Nat) (bounds : Rectangle) :
    (columnCircles i n bounds).map (fun c => c.center.y) =
      [padding / 2 + circleRadius bounds,
       padding / 2 + circleRadius bounds + circleRadius bounds * 2,
       padding / 2 + circleRadius bounds + circleRadius bounds * 2 + circleRadius bounds * 2,
       padding / 2 + circleRadius bounds + circleRadius bounds * 2 + circleRadius bounds * 2
         + circleRadius bounds * 2] := by
  rw [columnCircles_eq]
  simp

/-- The radii of the four circles of a column. -/
lemma columnCircles_radii (i n : Nat) (bounds : Rectangle) :
    (columnCircles i n bounds).map CircleCmd.radius =
      [circleRadius bounds, circleRadius bounds, circleRadius bounds, circleRadius bounds] := by
  rw [columnCircles_eq]
  simp

/-- The horizontal centres of the four circles of a column. -/
lemma columnCircles_xs (i n : Nat) (bounds : Rectangle) :
    (columnCircles i n bounds).map (fun c => c.center.x) =
      [circleRadius bounds * 2 * (i : ℚ) + circleRadius bounds,
       circleRadius bounds * 2 * (i : ℚ) + circleRadius bounds,
       circleRadius bounds * 2 * (i : ℚ) + circleRadius bounds,
       circleRadius bounds * 2 * (i : ℚ) + circleRadius bounds] := by
  rw [columnCircles_eq]
  simp

/-- One loop iteration emits one circle, so the command list is as long as
the row list. -/
lemma columnLoop_length (rows : List Nat) (pos : Point) (r : ℚ) (n : Nat) :
    (columnLoop rows pos r n).length = rows.length := by
  induction rows generalizing pos with
  | nil => rfl
  | cons a rest ih => simp [columnLoop, ih]

/-- Every column holds exactly four circles. -/
lemma columnCircles_length (i n : Nat) (bounds : Rectangle) :
    (columnCircles i n bounds).length = 4 := by
  rw [columnCircles_eq]
  rfl

/-! ## Claim theorems -/

/-- C1: for every digit value d in [0,9] and bit position b in [0,3], the
circle drawn for row b of a column (the list entry at index 3 - b, since the
loop runs bit 3 first) is filled with the active colour iff
(d >>> b) &&& 1 = 1, and rows are drawn most significant bit at the top:
the entry at index 3 - b sits at vertical offset (3 - b) circle-diameters
below the first row, so each successive row below corresponds to the next
lower bit. -/
theorem C1_row_bit_color (d b i : Nat) (bounds : Rectangle)
    (hd : d ≤ 9) (hb : b ≤ 3) :
    ((columnCircles i d bounds).map CircleCmd.color)[3 - b]? =
      some (if (d >>> b) &&& 1 = 1 then active_color else inactive_color) ∧
    ((columnCircles i d bounds).map (fun c => c.center.y))[3 - b]? =
      some (padding / 2 + circleRadius bounds
            + ((3 - b : Nat) : ℚ) * (circleRadius bounds * 2)) := by
  rw [columnCircles_colors, columnCircles_ys]
  constructor
  · simp only [and_shift]
    interval_cases b <;> simp
  · interval_cases b <;> (simp; try push_cast; try ring)

/-- Witness for C1 at d = 9, b = 3, i = 0, bounds 60 × 46. -/
theorem C1_row_bit_color_witness :
    (9 : Nat) ≤ 9 ∧ (3 : Nat) ≤ 3 ∧
    (((columnCircles 0 9 ⟨60, 46⟩).map CircleCmd.color)[3 - 3]? =
        some (if (9 >>> 3) &&& 1 = 1 then active_color else inactive_color) ∧
      ((columnCircles 0 9 ⟨60, 46⟩).map (fun c => c.center.y))[3 - 3]? =
        some (padding / 2 + circleRadius ⟨60, 46⟩
              + ((3 - 3 : Nat) : ℚ) * (circleRadius ⟨60, 46⟩ * 2))) :=
  ⟨by decide, by decide, C1_row_bit_color 9 3 0 ⟨60, 46⟩ (by decide) (by decide)⟩

/-- C2: for every valid time, each of the six displayed digits lies in
[0,9], the hour tens digit lies in {0,1,2}, and each tens/ones pair
reconstructs the hour, minute, and second respectively. -/
theorem C2_digit_decomposition (t : ClockTime)
    (hh : t.hour < 24) (hm : t.minute < 60) (hs : t.second < 60) :
    (∀ d ∈ timeDigits t, d ≤ 9) ∧
    (timeDigits t)[0]! ≤ 2 ∧
    (timeDigits t)[0]! * 10 + (timeDigits t)[1]! = t.hour ∧
    (timeDigits t)[2]! * 10 + (timeDigits t)[3]! = t.minute ∧
    (timeDigits t)[4]! * 10 + (timeDigits t)[5]! = t.second := by
  simp [timeDigits]
  omega

/-- Witness for C2 at the time 13:05:09. -/
theorem C2_digit_decomposition_witness :
    (13 : Nat) < 24 ∧ (5 : Nat) < 60 ∧ (9 : Nat) < 60 ∧
    ((∀ d ∈ timeDigits ⟨13, 5, 9⟩, d ≤ 9) ∧
      (timeDigits ⟨13, 5, 9⟩)[0]! ≤ 2 ∧
      (timeDigits ⟨13, 5, 9⟩)[0]! * 10 + (timeDigits ⟨13, 5, 9⟩)[1]! = 13 ∧
      (timeDigits ⟨13, 5, 9⟩)[2]! * 10 + (timeDigits ⟨13, 5, 9⟩)[3]! = 5 ∧
      (timeDigits ⟨13, 5, 9⟩)[4]! * 10 + (timeDigits ⟨13, 5, 9⟩)[5]! = 9) :=
  ⟨by decide, by decide, by decide,
    C2_digit_decomposition ⟨13, 5, 9⟩ (by decide) (by decide) (by decide)⟩

/-- C3: the renderer emits exactly six digit columns, in order column i
drawing digit i of the list hour/10, hour%10, minute/10, minute%10,
second/10, second%10, and for every valid time each of those digit values
lies in [0,9]. -/
theorem C3_six_columns_in_order (w : ClockWidget) (bounds : Rectangle)
    (hh : w.current_time.hour < 24) (hm : w.current_time.minute < 60)
    (hs : w.current_time.second < 60) :
    w.draw bounds =
      (timeDigits w.current_time).enum.map (fun p => columnCircles p.1 p.2 bounds) ∧
    (timeDigits w.current_time).length = 6 ∧
    (∀ d ∈ timeDigits w.current_time, d ≤ 9) := by
  refine ⟨rfl, rfl, ?_⟩
  simp [timeDigits]
  omega

/-- Witness for C3 at the time 13:05:09 with bounds 60 × 46. -/
theorem C3_six_columns_in_order_witness :
    (13 : Nat) < 24 ∧ (5 : Nat) < 60 ∧ (9 : Nat) < 60 ∧
    ((ClockWidget.mk .BCD ⟨13, 5, 9⟩).draw ⟨60, 46⟩ =
        (timeDigits ⟨13, 5, 9⟩).enum.map (fun p => columnCircles p.1 p.2 ⟨60, 46⟩) ∧
      (timeDigits ⟨13, 5, 9⟩).length = 6 ∧
      (∀ d ∈ timeDigits ⟨13, 5, 9⟩, d ≤ 9)) :=
  ⟨by decide, by decide, by decide,
    C3_six_columns_in_order ⟨.BCD, ⟨13, 5, 9⟩⟩ ⟨60, 46⟩
      (by decide) (by decide) (by decide)⟩

/-- C4: the radius is exactly (H - P)/8; every circle of column i has that
radius, x-centre radius * (2 i + 1), and the circle at row j has y-centre
P/2 + radius + j * (2 * radius). -/
theorem C4_layout_geometry (i n j : Nat) (bounds : Rectangle) (hj : j < 4) :
    circleRadius bounds = (bounds.height - padding) / 8 ∧
    ((columnCircles i n bounds).map CircleCmd.radius)[j]? = some (circleRadius bounds) ∧
    ((columnCircles i n bounds).map (fun c => c.center.x))[j]? =
      some (circleRadius bounds * (2 * (i : ℚ) + 1)) ∧
    ((columnCircles i n bounds).map (fun c => c.center.y))[j]? =
      some (padding / 2 + circleRadius bounds + (j : ℚ) * (2 * circleRadius bounds)) := by
  rw [columnCircles_radii, columnCircles_xs, columnCircles_ys]
  refine ⟨by norm_num [circleRadius, ROWS], ?_, ?_, ?_⟩
  · interval_cases j <;> simp
  · interval_cases j <;> (simp; ring)
  · interval_cases j <;> (simp; try push_cast; try ring)

/-- Witness for C4 at i = 1, n = 5, j = 2, bounds 60 × 46. -/
theorem C4_layout_geometry_witness :
    (2 : Nat) < 4 ∧
    (circleRadius ⟨60, 46⟩ = ((46 : ℚ) - padding) / 8 ∧
      ((columnCircles 1 5 ⟨60, 46⟩).map CircleCmd.radius)[2]? = some (circleRadius ⟨60, 46⟩) ∧
      ((columnCircles 1 5 ⟨60, 46⟩).map (fun c => c.center.x))[2]? =
        some (circleRadius ⟨60, 46⟩ * (2 * ((1 : Nat) : ℚ) + 1)) ∧
      ((columnCircles 1 5 ⟨60, 46⟩).map (fun c => c.center.y))[2]? =
        some (padding / 2 + circleRadius ⟨60, 46⟩ + ((2 : Nat) : ℚ) * (2 * circleRadius ⟨60, 46⟩))) :=
  ⟨by decide, C4_layout_geometry 1 5 2 ⟨60, 46⟩ (by decide)⟩

/-- C5: rendering is a deterministic pure function of the timestamp and the
bounds — two widgets with the same sampled time rendered into equal bounds
produce identical command lists (whatever their mode fields), and each such
list holds exactly 24 circle commands. -/
theorem C5_deterministic_pure (w₁ w₂ : ClockWidget) (bounds₁ bounds₂ : Rectangle)
    (ht : w₁.current_time = w₂.current_time) (hb : bounds₁ = bounds₂) :
    w₁.draw bounds₁ = w₂.draw bounds₂ ∧
    (w₁.draw bounds₁).flatten.length = 24 := by
  obtain ⟨m₁, t₁⟩ := w₁
  obtain ⟨m₂, t₂⟩ := w₂
  simp only at ht
  subst ht hb
  refine ⟨rfl, ?_⟩
  simp [ClockWidget.draw, columnCircles_length]

/-- Witness for C5 at the time 12:34:56 with bounds 60 × 46 and differing
mode fields. -/
theorem C5_deterministic_pure_witness :
    (ClockWidget.mk .BCD ⟨12, 34, 56⟩).current_time =
      (ClockWidget.mk .BINARY ⟨12, 34, 56⟩).current_time ∧
    (Rectangle.mk 60 46 : Rectangle) = ⟨60, 46⟩ ∧
    ((ClockWidget.mk .BCD ⟨12, 34, 56⟩).draw ⟨60, 46⟩ =
        (ClockWidget.mk .BINARY ⟨12, 34, 56⟩).draw ⟨60, 46⟩ ∧
      ((ClockWidget.mk .BCD ⟨12, 34, 56⟩).draw ⟨60, 46⟩).flatten.length = 24) :=
  ⟨rfl, rfl,
    C5_deterministic_pure ⟨.BCD, ⟨12, 34, 56⟩⟩ ⟨.BINARY, ⟨12, 34, 56⟩⟩
      ⟨60, 46⟩ ⟨60, 46⟩ rfl rfl⟩

/-- C6: every frame holds exactly six columns of exactly four circles each,
24 circles in total, for every widget state and bounds. -/
theorem C6_twenty_four_circles (w : ClockWidget) (bounds : Rectangle) :
    (w.draw bounds).length = 6 ∧
    (w.draw bounds).map List.length = [4, 4, 4, 4, 4, 4] ∧
    (w.draw bounds).flatten.length = 24 := by
  refine ⟨rfl, ?_, ?_⟩ <;>
    simp [ClockWidget.draw, columnCircles_length]

/-- C7: at 23:59:59 the six digit columns take the values [2,3,5,9,5,9];
reading each column top to bottom (bits 3, 2, 1, 0), column 0 lights only
bit 1 and columns 2-5 light the patterns of 5 (0101) and 9 (1001). -/
theorem C7_235959_pattern (mode : DisplayMode) (bounds : Rectangle) :
    timeDigits ⟨23, 59, 59⟩ = [2, 3, 5, 9, 5, 9] ∧
    ((ClockWidget.mk mode ⟨23, 59, 59⟩).draw bounds).map (fun col => col.map CircleCmd.color) =
      [[inactive_color, inactive_color, active_color, inactive_color],
       [inactive_color, inactive_color, active_color, active_color],
       [inactive_color, active_color, inactive_color, active_color],
       [active_color, inactive_color, inactive_color, active_color],
       [inactive_color, active_color, inactive_color, active_color],
       [active_color, inactive_color, inactive_color, active_color]] := by
  refine ⟨by decide, ?_⟩
  simp [ClockWidget.draw, columnCircles_colors]
  refine ⟨⟨?_, ?_⟩, ⟨?_, ?_⟩, ⟨?_, ?_⟩, ⟨?_, ?_⟩, ⟨?_, ?_⟩, ?_, ?_⟩ <;>
    (intro h; exact absurd rfl h)

/-- C8: every message other than Tick leaves the stored timestamp unchanged:
the update function succeeds and returns a model with the same current_time
field. -/
theorem C8_only_tick_writes_time (model : AppModel) (msg : Message)
    (now : ClockTime) (freshId : Nat) (h : msg ≠ Message.Tick) :
    ∃ model', AppModel.update model msg now freshId = some model' ∧
      model'.current_time = model.current_time := by
  cases msg with
  | Tick => exact absurd rfl h
  | TogglePopup =>
      cases hp : model.popup with
      | some p =>
          exact ⟨{ model with popup := none }, by simp [AppModel.update, hp], rfl⟩
      | none =>
          exact ⟨{ model with popup := some freshId }, by simp [AppModel.update, hp], rfl⟩
  | PopupClosed id =>
      by_cases hp : model.popup = some id
      · exact ⟨{ model with popup := none }, by simp [AppModel.update, hp], rfl⟩
      · exact ⟨model, by simp [AppModel.update, hp], rfl⟩
  | SubscriptionChannel => exact ⟨_, rfl, rfl⟩
  | UpdateConfig config => exact ⟨_, rfl, rfl⟩
  | ToggleExampleRow toggled => exact ⟨_, rfl, rfl⟩

/-- Witness for C8: a TogglePopup message leaves the stored time 01:02:03
unchanged. -/
theorem C8_only_tick_writes_time_witness :
    Message.TogglePopup ≠ Message.Tick ∧
    ∃ model', AppModel.update ⟨none, ⟨[]⟩, false, ⟨1, 2, 3⟩⟩ Message.TogglePopup
        ⟨4, 5, 6⟩ 7 = some model' ∧
      model'.current_time = (⟨none, ⟨[]⟩, false, ⟨1, 2, 3⟩⟩ : AppModel).current_time :=
  ⟨by decide,
    C8_only_tick_writes_time ⟨none, ⟨[]⟩, false, ⟨1, 2, 3⟩⟩ Message.TogglePopup
      ⟨4, 5, 6⟩ 7 (by decide)⟩

/-- C9: constructing the fixed offset from the compiled-in 3600-second
constant always succeeds, so the unwrap at initialization and the unwrap on
every tick can never panic. -/
theorem C9_offset_never_fails :
    FixedOffset.east_opt UTC_OFFSET_SECONDS = some ⟨UTC_OFFSET_SECONDS⟩ ∧
    (∀ now config, (AppModel.init now config).isSome = true) ∧
    (∀ model now freshId,
      (AppModel.update model Message.Tick now freshId).isSome = true) := by
  refine ⟨by decide, fun now config => ?_, fun model now freshId => ?_⟩ <;>
    simp [AppModel.init, AppModel.update, FixedOffset.east_opt, UTC_OFFSET_SECONDS]

/-- C10: the display mode field has no effect on rendering — BCD and BINARY
widgets with the same time produce identical draw commands on any bounds,
because draw never reads the mode field. -/
theorem C10_mode_has_no_effect (m₁ m₂ : DisplayMode) (t : ClockTime)
    (bounds : Rectangle) :
    (ClockWidget.mk m₁ t).draw bounds = (ClockWidget.mk m₂ t).draw bounds := rfl

end BinaryClock
